import Mathlib

/-!
Verification development for the ComboCtl Linux BlueZ C++ core.

Shallow embedding of:
* `types.cpp` — Bluetooth address formatting (`to_string`) and parsing
  (`from_string`, built on `std::getline` tokenisation and `std::stoi`
  with base 16);
* `rfcomm_connection.cpp` — the cancellable blocking `connect`, the
  `disconnect` self-pipe protocol and the `send` loop;
* `bluez_interface.cpp` — `start_discovery_impl` / `stop_discovery_impl`
  of the discovery orchestrator;
* `agent.cpp` — agent `setup` / `teardown` and the `RequestPinCode`
  handler;
* the set-based adapter observer variant (declared in `adapter.hpp`,
  modelled from the specification where its translation unit is absent).

Strings are embedded as `List Char`; machine bytes as `Fin 256`;
D-Bus / socket effects as explicit action traces; fallible calls as
booleans in an environment record describing which external call fails.
-/

namespace ComboCtl

/-! ### Address data model (`types.hpp` / `types.cpp`)

`bluetooth_address` is `std::array<std::uint8_t, 6>`; we embed the byte
type exactly as `Fin 256` and the address as a list of bytes (the parser
always produces six of them). -/

abbrev Byte := Fin 256

abbrev BtAddress := List Byte

/-- The sixteen characters `std::ostringstream` emits for hex digits under
`std::uppercase`. -/
def upperHexDigits : List Char :=
  ['0', '1', '2', '3', '4', '5', '6', '7', '8', '9', 'A', 'B', 'C', 'D', 'E', 'F']

/-- Value of one hex digit, as accepted by `std::stoi(token, nullptr, 16)`:
decimal digits plus both letter cases. `none` when the character is not a
hex digit. -/
def hexVal (c : Char) : Option Nat :=
  if '0' ≤ c ∧ c ≤ '9' then some (c.toNat - 48)
  else if 'a' ≤ c ∧ c ≤ 'f' then some (c.toNat - 87)
  else if 'A' ≤ c ∧ c ≤ 'F' then some (c.toNat - 55)
  else none

/-- Digit character printed for a value `0 ≤ n < 16` (uppercase, as in
`sstr << std::uppercase << std::hex`). -/
def toHexDigit (n : Nat) : Char := upperHexDigits.getD n '0'

/-- Two-digit rendering of one byte: `std::setw(2)` with `std::setfill('0')`
pads a single hex digit to two characters. -/
def byteToHex2 (b : Byte) : List Char := [toHexDigit (b.val / 16), toHexDigit (b.val % 16)]

/-- Interleaving of the groups with `':'`, as produced by the formatting
loop in `to_string` (a separator before every group except the first). -/
def joinColon : List (List Char) → List Char
  | [] => []
  | [g] => g
  | g :: rest => g ++ ':' :: joinColon rest

/-- `comboctl::to_string(bluetooth_address const &)` from `types.cpp`. -/
def to_string (addr : BtAddress) : List Char := joinColon (addr.map byteToHex2)

/-- Tokenisation performed by the six `std::getline(sstr, token, ':')`
calls: split at every `':'`; a `getline` call past the end of the stream
fails and leaves the token empty, which the list-default `[]` mirrors. -/
def splitOnColonAux : List Char → List Char → List (List Char)
  | [], acc => [acc.reverse]
  | c :: rest, acc =>
    if c = ':' then acc.reverse :: splitOnColonAux rest []
    else splitOnColonAux rest (c :: acc)

/-- Split a character list at every colon. -/
def splitOnColon (s : List Char) : List (List Char) := splitOnColonAux s []

/-- Whitespace skipped by `std::stoi` (via `strtol`): the six C-locale
space characters. -/
def isSpaceCh (c : Char) : Bool :=
  c ∈ [' ', Char.ofNat 9, Char.ofNat 10, Char.ofNat 11, Char.ofNat 12, Char.ofNat 13]

/-- Greedy accumulation of hex digits, returning the value and how many
digits were consumed. -/
def parseHexRunAux : List Char → Nat → Nat → Nat × Nat
  | [], v, n => (v, n)
  | c :: rest, v, n =>
    match hexVal c with
    | some d => parseHexRunAux rest (v * 16 + d) (n + 1)
    | none => (v, n)

/-- `strtol`'s optional base-16 prefix: `0x` / `0X` is consumed only when
a hex digit follows; `0x` alone leaves the subject sequence at the `0`. -/
def dropHexMark (s : List Char) : List Char :=
  match s with
  | '0' :: x :: rest =>
    if (x = 'x' ∨ x = 'X') ∧ (hexVal (rest.headD ' ')).isSome then rest else s
  | _ => s

/-- `std::stoi(token, nullptr, 16)`: skip whitespace, optional sign,
optional `0x` mark, then a non-empty run of hex digits; `none` models a
thrown `std::invalid_argument` (no digits) or `std::out_of_range` (value
outside the `int` range). Trailing garbage after the digits is ignored,
exactly as `stoi` ignores it. -/
def stoi16 (s : List Char) : Option Int :=
  let s1 := s.dropWhile isSpaceCh
  let signAndRest : Bool × List Char :=
    match s1 with
    | '-' :: r => (true, r)
    | '+' :: r => (false, r)
    | r => (false, r)
  let s3 := dropHexMark signAndRest.2
  let vn := parseHexRunAux s3 0 0
  if vn.2 = 0 then none
  else
    let value : Int := if signAndRest.1 then -(vn.1 : Int) else (vn.1 : Int)
    if value < -2147483648 ∨ 2147483647 < value then none else some value

/-- Outcome of `from_string`: the C++ function can return `true` with a
filled address, return `false`, or let an exception from `std::stoi`
escape. -/
inductive ParseResult where
  | ok (addr : BtAddress)
  | returnsFalse
  | throwsExc
deriving DecidableEq, Repr

/-- The narrowing assignment `address[i] = std::stoi(...)`: conversion of
`int` to `std::uint8_t` is reduction modulo 256. -/
def intToByte (v : Int) : Byte :=
  ⟨(v % 256).toNat, by
    have h1 : 0 ≤ v % 256 := Int.emod_nonneg v (by decide)
    have h2 : v % 256 < 256 := Int.emod_lt_of_pos v (by decide)
    omega⟩

/-- One loop iteration of `from_string`: empty token (a failed or empty
`getline`) makes the function return `false`; a token `std::stoi` cannot
parse makes it throw; otherwise the narrowed byte is stored. -/
inductive TokResult where
  | val (b : Byte)
  | emptyTok
  | badTok
deriving DecidableEq, Repr

/-- Parse one colon-separated token the way the loop body of
`from_string` does. -/
def parseByteTok (t : List Char) : TokResult :=
  if t.isEmpty then .emptyTok
  else
    match stoi16 t with
    | none => .badTok
    | some v => .val (intToByte v)

/-- `comboctl::from_string(bluetooth_address &, std::string_view const &)`
from `types.cpp`: six sequential `getline` + `stoi` steps; tokens past
the sixth are never read. -/
def from_string (s : List Char) : ParseResult :=
  let tokens := splitOnColon s
  match parseByteTok (tokens.getD 0 []) with
  | .emptyTok => .returnsFalse
  | .badTok => .throwsExc
  | .val b0 =>
    match parseByteTok (tokens.getD 1 []) with
    | .emptyTok => .returnsFalse
    | .badTok => .throwsExc
    | .val b1 =>
      match parseByteTok (tokens.getD 2 []) with
      | .emptyTok => .returnsFalse
      | .badTok => .throwsExc
      | .val b2 =>
        match parseByteTok (tokens.getD 3 []) with
        | .emptyTok => .returnsFalse
        | .badTok => .throwsExc
        | .val b3 =>
          match parseByteTok (tokens.getD 4 []) with
          | .emptyTok => .returnsFalse
          | .badTok => .throwsExc
          | .val b4 =>
            match parseByteTok (tokens.getD 5 []) with
            | .emptyTok => .returnsFalse
            | .badTok => .throwsExc
            | .val b5 => .ok [b0, b1, b2, b3, b4, b5]

/-- Defaulted hex digit value, used to state the roundtrip lemmas. -/
def hexValD (c : Char) : Nat := (hexVal c).getD 0

/-! ### Lemmas about single address groups -/

theorem stoi16_two_digits : ∀ c1 ∈ upperHexDigits, ∀ c2 ∈ upperHexDigits,
    stoi16 [c1, c2] = some ((hexValD c1 * 16 + hexValD c2 : Nat) : Int) := by decide

theorem byteToHex2_two_digits : ∀ c1 ∈ upperHexDigits, ∀ c2 ∈ upperHexDigits,
    byteToHex2 (intToByte ((hexValD c1 * 16 + hexValD c2 : Nat) : Int)) = [c1, c2] := by decide

theorem upperHexDigit_ne_colon : ∀ c ∈ upperHexDigits, ¬(c = ':') := by decide

theorem parseByteTok_two_digits : ∀ c1 ∈ upperHexDigits, ∀ c2 ∈ upperHexDigits,
    parseByteTok [c1, c2] = .val (intToByte ((hexValD c1 * 16 + hexValD c2 : Nat) : Int)) := by
  intro c1 h1 c2 h2
  simp [parseByteTok, stoi16_two_digits c1 h1 c2 h2]

/-- Claim C8: for every valid canonical address string — six
colon-separated two-digit uppercase hex groups, here quantified by its
twelve digit characters — parsing with `from_string` succeeds and
formatting the result with `to_string` yields the original string,
character for character. -/
theorem from_string_to_string_roundtrip
    (c0 c1 c2 c3 c4 c5 c6 c7 c8 c9 c10 c11 : Char)
    (h0 : c0 ∈ upperHexDigits) (h1 : c1 ∈ upperHexDigits)
    (h2 : c2 ∈ upperHexDigits) (h3 : c3 ∈ upperHexDigits)
    (h4 : c4 ∈ upperHexDigits) (h5 : c5 ∈ upperHexDigits)
    (h6 : c6 ∈ upperHexDigits) (h7 : c7 ∈ upperHexDigits)
    (h8 : c8 ∈ upperHexDigits) (h9 : c9 ∈ upperHexDigits)
    (h10 : c10 ∈ upperHexDigits) (h11 : c11 ∈ upperHexDigits) :
    ∃ a : BtAddress,
      from_string
          [c0, c1, ':', c2, c3, ':', c4, c5, ':', c6, c7, ':', c8, c9, ':', c10, c11] =
        .ok a ∧
      to_string a =
        [c0, c1, ':', c2, c3, ':', c4, c5, ':', c6, c7, ':', c8, c9, ':', c10, c11] := by
  have hsplit :
      splitOnColon
          [c0, c1, ':', c2, c3, ':', c4, c5, ':', c6, c7, ':', c8, c9, ':', c10, c11] =
        [[c0, c1], [c2, c3], [c4, c5], [c6, c7], [c8, c9], [c10, c11]] := by
    simp [splitOnColon, splitOnColonAux,
      upperHexDigit_ne_colon c0 h0, upperHexDigit_ne_colon c1 h1,
      upperHexDigit_ne_colon c2 h2, upperHexDigit_ne_colon c3 h3,
      upperHexDigit_ne_colon c4 h4, upperHexDigit_ne_colon c5 h5,
      upperHexDigit_ne_colon c6 h6, upperHexDigit_ne_colon c7 h7,
      upperHexDigit_ne_colon c8 h8, upperHexDigit_ne_colon c9 h9,
      upperHexDigit_ne_colon c10 h10, upperHexDigit_ne_colon c11 h11]
  refine ⟨[intToByte ((hexValD c0 * 16 + hexValD c1 : Nat) : Int),
           intToByte ((hexValD c2 * 16 + hexValD c3 : Nat) : Int),
           intToByte ((hexValD c4 * 16 + hexValD c5 : Nat) : Int),
           intToByte ((hexValD c6 * 16 + hexValD c7 : Nat) : Int),
           intToByte ((hexValD c8 * 16 + hexValD c9 : Nat) : Int),
           intToByte ((hexValD c10 * 16 + hexValD c11 : Nat) : Int)], ?_, ?_⟩
  · rw [from_string, hsplit]
    simp [parseByteTok_two_digits c0 h0 c1 h1, parseByteTok_two_digits c2 h2 c3 h3,
      parseByteTok_two_digits c4 h4 c5 h5, parseByteTok_two_digits c6 h6 c7 h7,
      parseByteTok_two_digits c8 h8 c9 h9, parseByteTok_two_digits c10 h10 c11 h11]
  · simp only [to_string, List.map, joinColon]
    rw [byteToHex2_two_digits c0 h0 c1 h1, byteToHex2_two_digits c2 h2 c3 h3,
      byteToHex2_two_digits c4 h4 c5 h5, byteToHex2_two_digits c6 h6 c7 h7,
      byteToHex2_two_digits c8 h8 c9 h9, byteToHex2_two_digits c10 h10 c11 h11]
    rfl

/-- Witness for claim C8 at the concrete canonical string
`AB:CD:EF:01:23:45`. -/
theorem from_string_to_string_roundtrip_witness :
    ∃ a : BtAddress,
      from_string
          ['A', 'B', ':', 'C', 'D', ':', 'E', 'F', ':', '0', '1', ':', '2', '3', ':', '4', '5'] =
        .ok a ∧
      to_string a =
        ['A', 'B', ':', 'C', 'D', ':', 'E', 'F', ':', '0', '1', ':', '2', '3', ':', '4', '5'] :=
  from_string_to_string_roundtrip 'A' 'B' 'C' 'D' 'E' 'F' '0' '1' '2' '3' '4' '5'
    (by decide) (by decide) (by decide) (by decide) (by decide) (by decide)
    (by decide) (by decide) (by decide) (by decide) (by decide) (by decide)

/-- Claim C9: the input `GG:00:00:00:00:00` is malformed (non-hex first
group), yet `from_string` does not report failure through its boolean
result: `std::stoi` throws `std::invalid_argument`, which escapes the
function. Moreover `AAA:11:22:33:44:55` (three-digit group) and
`00:11:22:33:44:55:66` (seven groups) are malformed but are accepted as
successes, the former with the first byte silently truncated modulo 256
to `0xAA`. This refutes the claim that every malformed input makes
`from_string` return `false`. -/
theorem from_string_malformed_behaviour :
    from_string ['G', 'G', ':', '0', '0', ':', '0', '0', ':', '0', '0', ':', '0', '0', ':', '0', '0'] =
      .throwsExc ∧
    from_string ['A', 'A', 'A', ':', '1', '1', ':', '2', '2', ':', '3', '3', ':', '4', '4', ':', '5', '5'] =
      .ok [0xAA, 0x11, 0x22, 0x33, 0x44, 0x55] ∧
    from_string ['0', '0', ':', '1', '1', ':', '2', '2', ':', '3', '3', ':', '4', '4', ':', '5', '5', ':', '6', '6'] =
      .ok [0x00, 0x11, 0x22, 0x33, 0x44, 0x55] := by decide

/-! ### RFCOMM connection (`rfcomm_connection.cpp`)

`rfcomm_connection::connect` is embedded as a function from the
connection's observable state plus an environment describing the
behaviour of the external POSIX calls to the resulting state, the trace
of steps actually performed, and the outcome. The environment's
`disconnectSignalled` field states that a `disconnect` call on another
thread wrote its dummy message into the self-pipe while the `poll` wait
was in progress, so `poll` reports the pipe's read end as readable. -/

/-- Steps of `rfcomm_connection::connect`, in source order. -/
inductive ConnectAction where
  | checkExisting
  | lockGuard
  | flushPipe
  | setConnectingFlag
  | createSocket
  | posixConnectCall
  | pollWait
  | drainPipe
  | querySocketError
  | adoptSocket
deriving DecidableEq, Repr

/-- Outcome of a `connect` call: normal return with an adopted socket,
the silent early return on shutdown, or one of the thrown exceptions
(`invalid_call_exception`, `io_exception` / non-cancelled
`gerror_exception`, or the `G_IO_ERROR_CANCELLED` `gerror_exception`). -/
inductive ConnectOutcome where
  | ok
  | shutdownReturn
  | invalidCallError
  | ioError
  | cancelledError
deriving DecidableEq, Repr

/-- Observable state of an `rfcomm_connection`: whether `m_socket` holds
an established connection, and the `m_is_shutting_down` flag. -/
structure ConnState where
  socketPresent : Bool
  isShuttingDown : Bool
deriving DecidableEq, Repr

/-- Behaviour of the external calls made by `connect`. -/
structure ConnectEnv where
  /-- The pipe-flushing `read` loop ends with `EAGAIN` rather than a hard error. -/
  flushOk : Bool
  /-- `socket(AF_BLUETOOTH, SOCK_STREAM, BTPROTO_RFCOMM)` succeeds. -/
  socketCreateOk : Bool
  /-- The non-blocking POSIX `::connect` returns 0 or fails with `EINPROGRESS`. -/
  posixConnectOk : Bool
  /-- `poll` does not fail with an error other than `EINTR`. -/
  pollOk : Bool
  /-- `disconnect` on another thread wrote to the self-pipe while `poll`
  waited, so `poll` reports `POLLIN` on the pipe's read end. -/
  disconnectSignalled : Bool
  /-- `poll` reports `POLLOUT` on the RFCOMM socket. -/
  sockWriteReady : Bool
  /-- The `SO_ERROR` value read through `getsockopt`. -/
  soError : Nat
  /-- `getpeername` succeeds. -/
  getpeernameOk : Bool
  /-- `g_socket_new_from_fd` succeeds. -/
  gsocketWrapOk : Bool
deriving DecidableEq, Repr

/-- `rfcomm_connection::connect`: the `m_socket` guard, the mutex-guarded
shutdown check, pipe flush, socket creation, non-blocking `::connect`,
the two-descriptor `poll` wait, and the post-`poll` dispatch that checks
the self-pipe before the socket. -/
def connect (st : ConnState) (env : ConnectEnv) : ConnState × List ConnectAction × ConnectOutcome :=
  if st.socketPresent then (st, [.checkExisting], .invalidCallError)
  else if st.isShuttingDown then (st, [.checkExisting, .lockGuard], .shutdownReturn)
  else if ¬env.flushOk then (st, [.checkExisting, .lockGuard, .flushPipe], .ioError)
  else
    let tr0 : List ConnectAction := [.checkExisting, .lockGuard, .flushPipe, .setConnectingFlag]
    if ¬env.socketCreateOk then (st, tr0 ++ [.createSocket], .ioError)
    else if ¬env.posixConnectOk then (st, tr0 ++ [.createSocket, .posixConnectCall], .ioError)
    else if ¬env.pollOk then
      (st, tr0 ++ [.createSocket, .posixConnectCall, .pollWait], .ioError)
    else if env.disconnectSignalled then
      (st, tr0 ++ [.createSocket, .posixConnectCall, .pollWait, .drainPipe], .cancelledError)
    else if env.sockWriteReady then
      if env.soError ≠ 0 then
        (st, tr0 ++ [.createSocket, .posixConnectCall, .pollWait, .querySocketError], .ioError)
      else if ¬env.getpeernameOk then
        (st, tr0 ++ [.createSocket, .posixConnectCall, .pollWait, .querySocketError], .ioError)
      else if ¬env.gsocketWrapOk then
        (st, tr0 ++ [.createSocket, .posixConnectCall, .pollWait, .querySocketError], .ioError)
      else
        ({st with socketPresent := true},
         tr0 ++ [.createSocket, .posixConnectCall, .pollWait, .querySocketError, .adoptSocket], .ok)
    else
      if ¬env.gsocketWrapOk then
        (st, tr0 ++ [.createSocket, .posixConnectCall, .pollWait], .ioError)
      else
        ({st with socketPresent := true},
         tr0 ++ [.createSocket, .posixConnectCall, .pollWait, .adoptSocket], .ok)

/-- Claim C1: whenever a `connect` call has reached its `poll` wait (the
socket was created and the non-blocking `::connect` was issued) and a
`disconnect` call on another thread writes to the self-pipe while it
waits, the `connect` call fails with the cancelled error from the
self-pipe branch — never with io-error — regardless of what the socket
descriptor itself reports (`sockWriteReady`, `soError`, `getpeername`).
The self-pipe branch is checked before the socket branch. -/
theorem connect_cancelled_on_disconnect (st : ConnState) (env : ConnectEnv)
    (hsock : st.socketPresent = false) (hsd : st.isShuttingDown = false)
    (hflush : env.flushOk = true) (hcreate : env.socketCreateOk = true)
    (hconn : env.posixConnectOk = true) (hpoll : env.pollOk = true)
    (hsig : env.disconnectSignalled = true) :
    (connect st env).2.2 = .cancelledError := by
  simp [connect, hsock, hsd, hflush, hcreate, hconn, hpoll, hsig]

/-- Witness for claim C1: even when the socket simultaneously reports
write-readiness with `SO_ERROR = ECONNREFUSED` (111), the self-pipe wins
and the outcome is cancelled. -/
theorem connect_cancelled_on_disconnect_witness :
    (connect ⟨false, false⟩ ⟨true, true, true, true, true, true, 111, false, true⟩).2.2 =
      ConnectOutcome.cancelledError :=
  connect_cancelled_on_disconnect ⟨false, false⟩ ⟨true, true, true, true, true, true, 111, false, true⟩
    rfl rfl rfl rfl rfl rfl rfl

/-- Claim C10: calling `connect` on a connection whose `m_socket` is
already present throws `invalid_call_exception` immediately: the trace
contains only the existing-connection check — no mutex acquisition, no
pipe access, no socket creation — and the state is unchanged. -/
theorem connect_rejects_when_connected (st : ConnState) (env : ConnectEnv)
    (h : st.socketPresent = true) :
    (connect st env).2.2 = .invalidCallError ∧
    (connect st env).1 = st ∧
    (connect st env).2.1 = [.checkExisting] ∧
    ConnectAction.lockGuard ∉ (connect st env).2.1 ∧
    ConnectAction.flushPipe ∉ (connect st env).2.1 ∧
    ConnectAction.createSocket ∉ (connect st env).2.1 := by
  simp [connect, h]

/-- Witness for claim C10 on a connected, not-shutting-down connection
with an all-failing environment (which is never consulted). -/
theorem connect_rejects_when_connected_witness :
    (connect ⟨true, false⟩ ⟨false, false, false, false, false, false, 0, false, false⟩).2.2 =
      ConnectOutcome.invalidCallError ∧
    (connect ⟨true, false⟩ ⟨false, false, false, false, false, false, 0, false, false⟩).1 =
      ⟨true, false⟩ ∧
    (connect ⟨true, false⟩ ⟨false, false, false, false, false, false, 0, false, false⟩).2.1 =
      [.checkExisting] ∧
    ConnectAction.lockGuard ∉
      (connect ⟨true, false⟩ ⟨false, false, false, false, false, false, 0, false, false⟩).2.1 ∧
    ConnectAction.flushPipe ∉
      (connect ⟨true, false⟩ ⟨false, false, false, false, false, false, 0, false, false⟩).2.1 ∧
    ConnectAction.createSocket ∉
      (connect ⟨true, false⟩ ⟨false, false, false, false, false, false, 0, false, false⟩).2.1 :=
  connect_rejects_when_connected ⟨true, false⟩
    ⟨false, false, false, false, false, false, 0, false, false⟩ rfl

/-! ### The send loop (`rfcomm_connection::send`)

Each iteration of the do-while loop calls `g_socket_send` once; the
oracle list records what every such call does. `wrote n` is a successful
partial write of `n` bytes (never more than requested, which the `min`
mirrors — the source asserts `num_bytes_sent <= remaining`),
`errCancelled` is a `G_IO_ERROR_CANCELLED` failure after the send
cancellable was triggered, and `errOther` is any other send error. -/

/-- Behaviour of one `g_socket_send` call. -/
inductive SendStep where
  | wrote (n : Nat)
  | errCancelled
  | errOther
deriving DecidableEq, Repr

/-- Result of the send loop: normal completion, a thrown cancelled
`gerror_exception`, a thrown io `gerror_exception`, or still looping when
the oracle list runs out. -/
inductive SendOutcome where
  | completed
  | cancelled
  | ioErr
  | stillLooping
deriving DecidableEq, Repr

/-- `rfcomm_connection::send`'s do-while loop, returning the outcome and
the total number of bytes handed to the kernel. -/
def sendLoop : List SendStep → Nat → SendOutcome × Nat
  | [], _ => (.stillLooping, 0)
  | step :: rest, remaining =>
    match step with
    | .errCancelled => (.cancelled, 0)
    | .errOther => (.ioErr, 0)
    | .wrote n =>
      let k := min n remaining
      if remaining - k > 0 then
        let p := sendLoop rest (remaining - k)
        (p.1, k + p.2)
      else (.completed, k)

/-- `rfcomm_connection::send(src, num_bytes)`: resets the cancellable and
runs the write loop over the whole requested byte count. -/
def send (steps : List SendStep) (numBytes : Nat) : SendOutcome × Nat :=
  sendLoop steps numBytes

theorem sendLoop_spec (steps : List SendStep) :
    ∀ remaining : Nat, 0 < remaining →
      ((sendLoop steps remaining).1 = .completed → (sendLoop steps remaining).2 = remaining) ∧
      ((sendLoop steps remaining).1 = .cancelled → SendStep.errCancelled ∈ steps) ∧
      ((sendLoop steps remaining).1 = .ioErr → SendStep.errOther ∈ steps) := by
  induction steps with
  | nil => intro remaining _; simp [sendLoop]
  | cons step rest ih =>
    intro remaining hrem
    cases step with
    | errCancelled => simp [sendLoop]
    | errOther => simp [sendLoop]
    | wrote n =>
      by_cases hr : remaining - min n remaining > 0
      · have ihr := ih (remaining - min n remaining) hr
        simp only [sendLoop, hr, if_pos]
        refine ⟨?_, ?_, ?_⟩
        · intro hc
          have := ihr.1 hc
          omega
        · intro hc
          exact List.mem_cons_of_mem _ (ihr.2.1 hc)
        · intro hc
          exact List.mem_cons_of_mem _ (ihr.2.2 hc)
      · simp only [sendLoop, hr, if_neg, if_false]
        refine ⟨?_, by simp, by simp⟩
        intro _
        omega

/-- Claim C6: for every positive byte count and every behaviour of the
underlying socket writes, `send` either returns normally having handed
exactly the requested number of bytes to the kernel (looping over partial
writes), or fails with cancelled — and then some `g_socket_send` call
reported the triggered cancellable — or fails with io-error after some
other write error; no run returns normally with bytes unsent. -/
theorem send_completes_all_or_fails (steps : List SendStep) (numBytes : Nat)
    (h : 0 < numBytes) :
    ((send steps numBytes).1 = .completed → (send steps numBytes).2 = numBytes) ∧
    ((send steps numBytes).1 = .cancelled → SendStep.errCancelled ∈ steps) ∧
    ((send steps numBytes).1 = .ioErr → SendStep.errOther ∈ steps) :=
  sendLoop_spec steps numBytes h

/-- Witness for claim C6: five bytes delivered across two partial writes
complete with all five bytes sent. -/
theorem send_completes_all_or_fails_witness :
    0 < 5 ∧
    (((send [SendStep.wrote 3, SendStep.wrote 2] 5).1 = .completed →
        (send [SendStep.wrote 3, SendStep.wrote 2] 5).2 = 5) ∧
      ((send [SendStep.wrote 3, SendStep.wrote 2] 5).1 = .cancelled →
        SendStep.errCancelled ∈ [SendStep.wrote 3, SendStep.wrote 2]) ∧
      ((send [SendStep.wrote 3, SendStep.wrote 2] 5).1 = .ioErr →
        SendStep.errOther ∈ [SendStep.wrote 3, SendStep.wrote 2])) :=
  ⟨by decide, send_completes_all_or_fails [SendStep.wrote 3, SendStep.wrote 2] 5 (by decide)⟩

/-! ### Discovery orchestrator (`bluez_interface.cpp`,
`bluez_interface_priv::start_discovery_impl` / `stop_discovery_impl`)

The session state tracks the `m_discovery_started` flag, whether the
auto-stop timeout GSource is scheduled, and which components are
currently set up. Events record, in order, the callback invocations and
the component calls the implementation performs. -/

/-- `discovery_stopped_reason` from `bluez_interface.hpp`. -/
inductive StopReason where
  | manuallyStopped
  | discoveryTimeout
  | discoveryError
deriving DecidableEq, Repr

/-- Observable effects of the discovery start/stop code, in execution
order. -/
inductive DiscoveryEvent where
  | onStarted
  | timerScheduled
  | agentSetupCall
  | sdpSetupCall
  | adapterStartDiscoveryCall
  | onStopped (reason : StopReason)
  | agentTeardownCall
  | sdpTeardownCall
  | adapterStopDiscoveryCall
  | timerCancelled
deriving DecidableEq, Repr

/-- Session state of `bluez_interface_priv`. -/
structure DiscoveryState where
  discoveryStarted : Bool
  timerActive : Bool
  agentActive : Bool
  sdpActive : Bool
  adapterScanning : Bool
deriving DecidableEq, Repr

/-- Which component-setup step of `start_discovery_impl` throws. The
first failing step aborts the function; each component's own `setup`
rolls back that component's partial state internally (its scope guard),
so a failing step leaves that one component inactive. -/
structure StartEnv where
  agentSetupFails : Bool
  sdpSetupFails : Bool
  adapterStartFails : Bool
deriving DecidableEq, Repr

/-- Result of `start_discovery_impl`. -/
inductive StartOutcome where
  | ok
  | invalidCallError
  | failed
deriving DecidableEq, Repr

/-- `bluez_interface_priv::start_discovery_impl`: rejects a second start,
invokes `on_discovery_started`, arms the scope guard that invokes
`on_discovery_stopped(discovery_error)` on failure, schedules the
auto-stop timeout GSource, then sets up agent, SDP service and adapter
discovery in that order. On success the guard is dismissed and
`m_discovery_started` becomes true. -/
def start_discovery_impl (st : DiscoveryState) (env : StartEnv) :
    DiscoveryState × List DiscoveryEvent × StartOutcome :=
  if st.discoveryStarted then (st, [], .invalidCallError)
  else
    let st1 := {st with timerActive := true}
    let ev1 : List DiscoveryEvent := [.onStarted, .timerScheduled]
    if env.agentSetupFails then
      (st1, ev1 ++ [.agentSetupCall, .onStopped .discoveryError], .failed)
    else
      let st2 := {st1 with agentActive := true}
      if env.sdpSetupFails then
        (st2, ev1 ++ [.agentSetupCall, .sdpSetupCall, .onStopped .discoveryError], .failed)
      else
        let st3 := {st2 with sdpActive := true}
        if env.adapterStartFails then
          (st3,
           ev1 ++ [.agentSetupCall, .sdpSetupCall, .adapterStartDiscoveryCall,
                   .onStopped .discoveryError],
           .failed)
        else
          ({st3 with adapterScanning := true, discoveryStarted := true},
           ev1 ++ [.agentSetupCall, .sdpSetupCall, .adapterStartDiscoveryCall], .ok)

/-- `bluez_interface_priv::stop_discovery_impl`: early-returns when no
session is active; otherwise clears `m_discovery_started`, invokes
`m_on_discovery_stopped(reason)`, tears down the agent, tears down the
SDP service, and destroys the timeout GSource when one is scheduled. No
adapter call is made. -/
def stop_discovery_impl (st : DiscoveryState) (reason : StopReason) :
    DiscoveryState × List DiscoveryEvent :=
  if ¬st.discoveryStarted then (st, [])
  else
    ({st with discoveryStarted := false, agentActive := false, sdpActive := false,
              timerActive := false},
     [DiscoveryEvent.onStopped reason, .agentTeardownCall, .sdpTeardownCall] ++
       (if st.timerActive then [DiscoveryEvent.timerCancelled] else []))

/-- Claim C2 counterexample: starting from a pristine state, when the SDP
registration step fails, `start_discovery_impl` does invoke
`on_discovery_stopped(discovery_error)` (the scope guard), but the agent
set up by the preceding step stays registered and the already-scheduled
auto-stop timer stays scheduled — no teardown call is made for either —
so the object is not left as if `start_discovery` had never been
called. -/
theorem start_discovery_rollback_counterexample :
    (DiscoveryEvent.onStopped .discoveryError ∈
        (start_discovery_impl ⟨false, false, false, false, false⟩ ⟨false, true, false⟩).2.1) ∧
    (start_discovery_impl ⟨false, false, false, false, false⟩ ⟨false, true, false⟩).1.agentActive =
      true ∧
    (start_discovery_impl ⟨false, false, false, false, false⟩ ⟨false, true, false⟩).1.timerActive =
      true ∧
    DiscoveryEvent.agentTeardownCall ∉
      (start_discovery_impl ⟨false, false, false, false, false⟩ ⟨false, true, false⟩).2.1 ∧
    DiscoveryEvent.timerCancelled ∉
      (start_discovery_impl ⟨false, false, false, false, false⟩ ⟨false, true, false⟩).2.1 := by
  decide

/-- Claim C2 as amended: for every failure thrown during the
component-setup steps of `start_discovery_impl` (agent registration, SDP
registration, adapter start), the function fails, invokes the on-stopped
callback with reason discovery-error, and leaves the started flag false —
but it does not tear down the partially established session state: the
trace contains no agent, SDP, adapter or timer teardown call, the
already-scheduled auto-stop timer stays scheduled, and every component
registered before the failing step stays registered (the agent when the
agent step succeeded; the SDP service when the agent and SDP steps
succeeded). -/
theorem start_discovery_failure_emits_error (st : DiscoveryState) (env : StartEnv)
    (hns : st.discoveryStarted = false)
    (hfail : env.agentSetupFails = true ∨ env.sdpSetupFails = true ∨
      env.adapterStartFails = true) :
    (start_discovery_impl st env).2.2 = .failed ∧
    DiscoveryEvent.onStopped .discoveryError ∈ (start_discovery_impl st env).2.1 ∧
    (start_discovery_impl st env).1.discoveryStarted = false ∧
    (start_discovery_impl st env).1.timerActive = true ∧
    DiscoveryEvent.agentTeardownCall ∉ (start_discovery_impl st env).2.1 ∧
    DiscoveryEvent.sdpTeardownCall ∉ (start_discovery_impl st env).2.1 ∧
    DiscoveryEvent.adapterStopDiscoveryCall ∉ (start_discovery_impl st env).2.1 ∧
    DiscoveryEvent.timerCancelled ∉ (start_discovery_impl st env).2.1 ∧
    (env.agentSetupFails = false → (start_discovery_impl st env).1.agentActive = true) ∧
    (env.agentSetupFails = false → env.sdpSetupFails = false →
      (start_discovery_impl st env).1.sdpActive = true) := by
  rcases env with ⟨a, s, d⟩
  cases a <;> cases s <;> cases d <;> simp_all [start_discovery_impl]

/-- Witness for the amended claim C2: pristine state, adapter start
fails; the agent and SDP service registered by the two preceding steps
stay registered and no teardown call appears. -/
theorem start_discovery_failure_emits_error_witness :
    (start_discovery_impl ⟨false, false, false, false, false⟩ ⟨false, false, true⟩).2.2 =
      .failed ∧
    DiscoveryEvent.onStopped .discoveryError ∈
      (start_discovery_impl ⟨false, false, false, false, false⟩ ⟨false, false, true⟩).2.1 ∧
    (start_discovery_impl ⟨false, false, false, false, false⟩
        ⟨false, false, true⟩).1.discoveryStarted = false ∧
    (start_discovery_impl ⟨false, false, false, false, false⟩
        ⟨false, false, true⟩).1.timerActive = true ∧
    DiscoveryEvent.agentTeardownCall ∉
      (start_discovery_impl ⟨false, false, false, false, false⟩ ⟨false, false, true⟩).2.1 ∧
    DiscoveryEvent.sdpTeardownCall ∉
      (start_discovery_impl ⟨false, false, false, false, false⟩ ⟨false, false, true⟩).2.1 ∧
    DiscoveryEvent.adapterStopDiscoveryCall ∉
      (start_discovery_impl ⟨false, false, false, false, false⟩ ⟨false, false, true⟩).2.1 ∧
    DiscoveryEvent.timerCancelled ∉
      (start_discovery_impl ⟨false, false, false, false, false⟩ ⟨false, false, true⟩).2.1 ∧
    ((⟨false, false, true⟩ : StartEnv).agentSetupFails = false →
      (start_discovery_impl ⟨false, false, false, false, false⟩
          ⟨false, false, true⟩).1.agentActive = true) ∧
    ((⟨false, false, true⟩ : StartEnv).agentSetupFails = false →
      (⟨false, false, true⟩ : StartEnv).sdpSetupFails = false →
      (start_discovery_impl ⟨false, false, false, false, false⟩
          ⟨false, false, true⟩).1.sdpActive = true) :=
  start_discovery_failure_emits_error ⟨false, false, false, false, false⟩ ⟨false, false, true⟩
    rfl (Or.inr (Or.inr rfl))

/-- Claim C4 counterexample: on a fully active session,
`stop_discovery_impl` performs `on_stopped`, agent teardown, SDP teardown
and timer destruction — in that order — so (i) it never tells the adapter
to stop scanning (no `StopDiscovery` adapter call appears and the
adapter-scanning state is untouched), and (ii) the agent is torn down
before the SDP service, which is the same order as startup
(agent → SDP), not the reverse. -/
theorem stop_discovery_effects_counterexample :
    (stop_discovery_impl ⟨true, true, true, true, true⟩ .manuallyStopped).2 =
      [DiscoveryEvent.onStopped .manuallyStopped, .agentTeardownCall, .sdpTeardownCall,
       .timerCancelled] ∧
    DiscoveryEvent.adapterStopDiscoveryCall ∉
      (stop_discovery_impl ⟨true, true, true, true, true⟩ .manuallyStopped).2 ∧
    (stop_discovery_impl ⟨true, true, true, true, true⟩ .manuallyStopped).1.adapterScanning =
      true := by
  decide

/-- Claim C4 as amended: every `stop_discovery_impl` call on an active
session clears the started flag, invokes on-stopped with the given
reason, tears down the agent and then the SDP service — the same order as
startup, not the reverse — and cancels the auto-stop timer when one is
scheduled; it makes no adapter stop-scan call, and the adapter's scanning
state is untouched (scanning only stops when the whole interface is torn
down). -/
theorem stop_discovery_spec (st : DiscoveryState) (reason : StopReason)
    (h : st.discoveryStarted = true) :
    stop_discovery_impl st reason =
      ({st with discoveryStarted := false, agentActive := false, sdpActive := false,
                timerActive := false},
       [DiscoveryEvent.onStopped reason, .agentTeardownCall, .sdpTeardownCall] ++
         (if st.timerActive then [DiscoveryEvent.timerCancelled] else [])) := by
  simp [stop_discovery_impl, h]

/-- Witness for the amended claim C4 on a fully active session. -/
theorem stop_discovery_spec_witness :
    stop_discovery_impl ⟨true, true, true, true, true⟩ .discoveryTimeout =
      (⟨false, false, false, false, true⟩,
       [DiscoveryEvent.onStopped .discoveryTimeout, .agentTeardownCall, .sdpTeardownCall,
        .timerCancelled]) := by
  have h := stop_discovery_spec ⟨true, true, true, true, true⟩ .discoveryTimeout rfl
  simpa using h

/-! ### Pairing agent (`agent.cpp`)

`agent::setup` / `agent::teardown` are embedded as action traces on the
agent's four state fields (`m_dbus_connection`, `m_agent_manager_proxy`,
`m_agent_object_id`, `m_agent_registered`), and the `RequestPinCode`
branch of `agent::handle_agent_method_call` as a function of the filter
callback, the stored PIN and the device's resolved `Address` property. -/

/-- Agent state fields, as booleans: connection stored, manager proxy
held, agent object published on the bus, and the `m_agent_registered`
flag. -/
structure AgentState where
  dbusConnectionSet : Bool
  managerProxySet : Bool
  objectRegistered : Bool
  agentRegisteredFlag : Bool
deriving DecidableEq, Repr

/-- D-Bus operations the agent performs. -/
inductive AgentAction where
  | createManagerProxy
  | registerObjectCall
  | registerAgentCall
  | requestDefaultAgentCall
  | unregisterAgentCall
  | unregisterObjectCall
  | dropManagerProxy
deriving DecidableEq, Repr

/-- Which external call of `agent::setup` fails. -/
structure AgentSetupEnv where
  proxyOk : Bool
  nodeInfoOk : Bool
  registerObjectOk : Bool
  registerAgentOk : Bool
  requestDefaultOk : Bool
deriving DecidableEq, Repr

/-- Result of `agent::setup`. -/
inductive AgentSetupOutcome where
  | ok
  | invalidCallError
  | failed
deriving DecidableEq, Repr

/-- `agent::teardown`: when `m_agent_registered` is set, call
`UnregisterAgent` on the daemon and clear the flag; when the agent object
is published, unregister it; when the manager proxy is held, drop it;
finally clear the stored connection. -/
def agent_teardown (st : AgentState) : AgentState × List AgentAction :=
  let p1 : AgentState × List AgentAction :=
    if st.agentRegisteredFlag then
      ({st with agentRegisteredFlag := false}, [AgentAction.unregisterAgentCall])
    else (st, [])
  let p2 : AgentState × List AgentAction :=
    if p1.1.objectRegistered then
      ({p1.1 with objectRegistered := false}, [AgentAction.unregisterObjectCall])
    else (p1.1, [])
  let p3 : AgentState × List AgentAction :=
    if p2.1.managerProxySet then
      ({p2.1 with managerProxySet := false}, [AgentAction.dropManagerProxy])
    else (p2.1, [])
  ({p3.1 with dbusConnectionSet := false}, p1.2 ++ p2.2 ++ p3.2)

/-- `agent::setup`: rejects a second setup while the object is
registered, stores the connection, arms a scope guard that calls
`teardown()` on failure, then creates the manager proxy, parses the node
info, registers the agent object, and issues `RegisterAgent` and
`RequestDefaultAgent`. Note that no step ever sets the
`m_agent_registered` flag. -/
def agent_setup (st : AgentState) (env : AgentSetupEnv) :
    AgentState × List AgentAction × AgentSetupOutcome :=
  if st.objectRegistered then (st, [], .invalidCallError)
  else
    let st0 := {st with dbusConnectionSet := true}
    if ¬env.proxyOk then
      ((agent_teardown st0).1, AgentAction.createManagerProxy :: (agent_teardown st0).2, .failed)
    else
      let st1 := {st0 with managerProxySet := true}
      if ¬env.nodeInfoOk then
        ((agent_teardown st1).1, AgentAction.createManagerProxy :: (agent_teardown st1).2, .failed)
      else if ¬env.registerObjectOk then
        ((agent_teardown st1).1,
         [AgentAction.createManagerProxy, .registerObjectCall] ++ (agent_teardown st1).2, .failed)
      else
        let st2 := {st1 with objectRegistered := true}
        if ¬env.registerAgentOk then
          ((agent_teardown st2).1,
           [AgentAction.createManagerProxy, .registerObjectCall, .registerAgentCall] ++
             (agent_teardown st2).2,
           .failed)
        else if ¬env.requestDefaultOk then
          ((agent_teardown st2).1,
           [AgentAction.createManagerProxy, .registerObjectCall, .registerAgentCall,
            .requestDefaultAgentCall] ++ (agent_teardown st2).2,
           .failed)
        else
          (st2,
           [AgentAction.createManagerProxy, .registerObjectCall, .registerAgentCall,
            .requestDefaultAgentCall],
           .ok)

/-- Claim C7: evaluation of the agent code at the failing scenario. A
pristine agent is set up with every D-Bus operation succeeding
(`RegisterAgent` and `RequestDefaultAgent` both issued and successful),
yet the resulting state still has `m_agent_registered = false`, so the
subsequent teardown never issues the `UnregisterAgent` call — it only
unpublishes the agent object and drops the manager proxy — and a second
teardown performs no action at all. -/
theorem agent_teardown_never_unregisters :
    (agent_setup ⟨false, false, false, false⟩ ⟨true, true, true, true, true⟩).2.2 = .ok ∧
    AgentAction.registerAgentCall ∈
      (agent_setup ⟨false, false, false, false⟩ ⟨true, true, true, true, true⟩).2.1 ∧
    AgentAction.requestDefaultAgentCall ∈
      (agent_setup ⟨false, false, false, false⟩ ⟨true, true, true, true, true⟩).2.1 ∧
    (agent_setup ⟨false, false, false, false⟩ ⟨true, true, true, true, true⟩).1.agentRegisteredFlag =
      false ∧
    AgentAction.unregisterAgentCall ∉
      (agent_teardown
        (agent_setup ⟨false, false, false, false⟩ ⟨true, true, true, true, true⟩).1).2 ∧
    AgentAction.unregisterObjectCall ∈
      (agent_teardown
        (agent_setup ⟨false, false, false, false⟩ ⟨true, true, true, true, true⟩).1).2 ∧
    AgentAction.dropManagerProxy ∈
      (agent_teardown
        (agent_setup ⟨false, false, false, false⟩ ⟨true, true, true, true, true⟩).1).2 ∧
    (agent_teardown
        (agent_teardown
          (agent_setup ⟨false, false, false, false⟩ ⟨true, true, true, true, true⟩).1).1).2 =
      [] := by
  decide

/-- Reply sent for a `RequestPinCode` method call: the PIN value, a
`org.bluez.Error.Rejected` error reply from the scope guard, or the
guard's rejected reply followed by an exception escaping into the GLib C
callback (proxy-creation failure or an address that makes
`comboctl::from_string` throw). -/
inductive PinReply where
  | pinCode (p : List Char)
  | rejected
  | rejectedThenUnwound
deriving DecidableEq, Repr

/-- Externals of one `RequestPinCode` handling: whether the one-shot
device proxy is created, and the device object path's `Address` property
(`none`: absent; `some none`: present but not a string; `some (some s)`:
the string `s`). -/
structure PinRequestEnv where
  proxyOk : Bool
  addressProp : Option (Option (List Char))
deriving DecidableEq, Repr

/-- The `RequestPinCode` branch of `agent::handle_agent_method_call`: a
scope guard answers `Rejected` unless dismissed; the device proxy is
created and its cached `Address` property resolved; only when a filter
callback is configured is the address parsed with `from_string` and power
given to the filter; otherwise the stored PIN is returned directly. -/
def handle_request_pin_code (filter : Option (BtAddress → Bool)) (pin : List Char)
    (env : PinRequestEnv) : PinReply :=
  if ¬env.proxyOk then .rejectedThenUnwound
  else
    match env.addressProp with
    | none => .rejected
    | some none => .rejected
    | some (some addrStr) =>
      match filter with
      | some f =>
        match from_string addrStr with
        | .ok a => if f a then .pinCode pin else .rejected
        | .returnsFalse => .rejected
        | .throwsExc => .rejectedThenUnwound
      | none => .pinCode pin

/-- Claim C3 counterexample: with no filter configured and an `Address`
property value `":"` that `from_string` rejects (returns false), the
request is answered with the stored PIN `"1234"`, not with a `Rejected`
error — the address is never parsed when no filter is configured, so the
parse-failure rejection does not apply in that case. -/
theorem pin_request_no_filter_counterexample :
    handle_request_pin_code none ['1', '2', '3', '4'] ⟨true, some (some [':'])⟩ =
      .pinCode ['1', '2', '3', '4'] ∧
    from_string [':'] = .returnsFalse := by
  decide

/-- Claim C3 as amended: on every `RequestPinCode` call whose device
proxy is created, the device path's `Address` property is resolved; a
missing or non-string property is answered with `Rejected`; when a filter
predicate is configured, an address whose parse returns false is answered
with `Rejected`, an address the filter rejects is answered with
`Rejected`, and an accepted address receives the stored PIN; when no
filter is configured the PIN is returned without the address being
parsed, so the parse-failure rejection applies only when a filter is
configured. -/
theorem pin_request_spec (filter : Option (BtAddress → Bool)) (pin : List Char)
    (env : PinRequestEnv) (hproxy : env.proxyOk = true) :
    (env.addressProp = none → handle_request_pin_code filter pin env = .rejected) ∧
    (env.addressProp = some none → handle_request_pin_code filter pin env = .rejected) ∧
    (∀ s f, filter = some f → env.addressProp = some (some s) →
      from_string s = .returnsFalse → handle_request_pin_code filter pin env = .rejected) ∧
    (∀ s f a, filter = some f → env.addressProp = some (some s) →
      from_string s = .ok a → f a = false →
      handle_request_pin_code filter pin env = .rejected) ∧
    (∀ s f a, filter = some f → env.addressProp = some (some s) →
      from_string s = .ok a → f a = true →
      handle_request_pin_code filter pin env = .pinCode pin) ∧
    (∀ s, filter = none → env.addressProp = some (some s) →
      handle_request_pin_code filter pin env = .pinCode pin) := by
  refine ⟨?_, ?_, ?_, ?_, ?_, ?_⟩
  · intro h; simp [handle_request_pin_code, hproxy, h]
  · intro h; simp [handle_request_pin_code, hproxy, h]
  · intro s f hf h hp; simp [handle_request_pin_code, hproxy, h, hf, hp]
  · intro s f a hf h hp hrej; simp [handle_request_pin_code, hproxy, h, hf, hp, hrej]
  · intro s f a hf h hp hacc; simp [handle_request_pin_code, hproxy, h, hf, hp, hacc]
  · intro s hf h; simp [handle_request_pin_code, hproxy, h, hf]

/-- Witness for the amended claim C3: with PIN `"1234"`, a filter
accepting only addresses starting with byte `0xAA`, and the parseable
address `AA:BB:CC:DE:AD:BE`, the reply carries the PIN. -/
theorem pin_request_spec_witness :
    handle_request_pin_code (some (fun a => a.headD 0 = 0xAA)) ['1', '2', '3', '4']
        ⟨true, some (some ['A', 'A', ':', 'B', 'B', ':', 'C', 'C', ':', 'D', 'E', ':', 'A', 'D', ':', 'B', 'E'])⟩ =
      .pinCode ['1', '2', '3', '4'] :=
  (pin_request_spec (some (fun a => a.headD 0 = 0xAA)) ['1', '2', '3', '4']
      ⟨true, some (some ['A', 'A', ':', 'B', 'B', ':', 'C', 'C', ':', 'D', 'E', ':', 'A', 'D', ':', 'B', 'E'])⟩
      rfl).2.2.2.2.1
    ['A', 'A', ':', 'B', 'B', ':', 'C', 'C', ':', 'D', 'E', ':', 'A', 'D', ':', 'B', 'E']
    (fun a => a.headD 0 = 0xAA) [0xAA, 0xBB, 0xCC, 0xDE, 0xAD, 0xBE]
    rfl rfl (by decide) (by decide)

/-! ### Adapter observer with device filter (set-based variant)

The source tree ships the set-based adapter variant only as a
declaration: `comboctl/src/linuxBlueZCpp/src/priv-headers/adapter.hpp`
declares `set_device_filter`, `handle_observed_device` and the
`m_observed_devices` map, and `bluez_interface.cpp` relies on them ("The
adapter applies a filter if one is defined, so we only get devices here
that passed that filter"), but that variant's translation unit is not
present; the present `adapter.cpp` is the earlier filterless variant
whose event plumbing (`process_added_dbus_object_interfaces`,
`process_dbus_object_interface_property_changes`,
`process_removed_dbus_object_interfaces`) we follow for the signal
dispatch. The per-device decision is therefore modelled from the spec. -/

/-- D-Bus object paths, abstracted. -/
abbrev ObjPath := Nat

/-- Adapter observer state: the address↔path map and the observed-paired
set (`m_observed_devices`). -/
structure ObserverState where
  pathMap : List (BtAddress × ObjPath)
  observed : List BtAddress
deriving DecidableEq, Repr

/-- Callbacks the observer can invoke. -/
inductive ObserverEvent where
  | foundPaired (a : BtAddress)
  | deviceGone (a : BtAddress)
deriving DecidableEq, Repr

/-- Inbound bus signals, reduced to the data the adapter extracts from
them: whether the `org.bluez.Device1` interface is involved, the parsed
`Address` property (already converted; `none` when absent or invalid) and
the `Paired` boolean. -/
inductive BusSignal where
  | interfacesAdded (path : ObjPath) (hasDevice : Bool) (addr : Option BtAddress) (paired : Bool)
  | propertiesChanged (path : ObjPath) (isDevice : Bool) (paired : Option Bool)
  | interfacesRemoved (path : ObjPath) (hasDevice : Bool)

/-- `adapter::filter_device`: a missing filter accepts every address. -/
def filterAccepts (filter : Option (BtAddress → Bool)) (a : BtAddress) : Bool :=
  match filter with
  | none => true
  | some f => f a

/-- Path lookup in the address↔path map (the `.right` side of the
bimap). -/
def lookupAddr (m : List (BtAddress × ObjPath)) (p : ObjPath) : Option BtAddress :=
  (m.find? (fun e => e.2 == p)).map (·.1)

/-- Modelled from the spec: `adapter::handle_observed_device` of the
set-based adapter variant, whose translation unit is absent from the
source tree (only `adapter.hpp` declares it). Follows §4.7 of the spec:
an address the filter rejects is ignored; `paired=false` for a recorded
address is treated as unpaired (device gone, removed from the set);
`paired=true` for a recorded address is ignored; otherwise a newly paired
address is recorded and `on-found-paired` is invoked. -/
def handle_observed_device (filter : Option (BtAddress → Bool)) (st : ObserverState)
    (a : BtAddress) (isPaired : Bool) : ObserverState × List ObserverEvent :=
  if ¬filterAccepts filter a then (st, [])
  else if isPaired then
    if a ∈ st.observed then (st, [])
    else ({st with observed := a :: st.observed}, [ObserverEvent.foundPaired a])
  else
    if a ∈ st.observed then
      ({st with observed := st.observed.erase a}, [ObserverEvent.deviceGone a])
    else (st, [])

/-- Dispatch of one bus signal, following the shape of
`adapter::process_added_dbus_object_interfaces`,
`process_dbus_object_interface_property_changes` and
`process_removed_dbus_object_interfaces`: `InterfacesAdded` with a valid
device address records the address↔path pair and feeds the device
through `handle_observed_device`; `PropertiesChanged` with a `Paired`
change on a known path feeds the stored address through; an
`InterfacesRemoved` of the device interface on a known path purges the
pair and feeds the address through as no-longer-paired. -/
def process_signal (filter : Option (BtAddress → Bool)) (st : ObserverState)
    (sig : BusSignal) : ObserverState × List ObserverEvent :=
  match sig with
  | .interfacesAdded path hasDev addr paired =>
    if hasDev then
      match addr with
      | some a =>
        handle_observed_device filter {st with pathMap := (a, path) :: st.pathMap} a paired
      | none => (st, [])
    else (st, [])
  | .propertiesChanged path isDev pairedOpt =>
    if isDev then
      match lookupAddr st.pathMap path with
      | some a =>
        match pairedOpt with
        | some b => handle_observed_device filter st a b
        | none => (st, [])
      | none => (st, [])
    else (st, [])
  | .interfacesRemoved path hasDev =>
    if hasDev then
      match lookupAddr st.pathMap path with
      | some a =>
        handle_observed_device filter
          {st with pathMap := st.pathMap.filter (fun e => e.2 != path)} a false
      | none => (st, [])
    else (st, [])

/-- Processing of a whole signal sequence, accumulating the invoked
callbacks in order. -/
def process_signals (filter : Option (BtAddress → Bool)) :
    ObserverState → List BusSignal → ObserverState × List ObserverEvent
  | st, [] => (st, [])
  | st, sig :: rest =>
    let r1 := process_signal filter st sig
    let r2 := process_signals filter r1.1 rest
    (r2.1, r1.2 ++ r2.2)

theorem foundPaired_notin_handle (f : BtAddress → Bool) (a : BtAddress)
    (hrej : f a = false) (st : ObserverState) (b : BtAddress) (p : Bool) :
    ObserverEvent.foundPaired a ∉ (handle_observed_device (some f) st b p).2 := by
  unfold handle_observed_device filterAccepts
  by_cases hb : f b = true
  · simp only [hb]
    by_cases hba : b = a
    · subst hba; rw [hb] at hrej; cases hrej
    · cases p <;> simp <;> split <;> simp [hba, Ne.symm hba]
  · simp [hb]

theorem foundPaired_notin_signal (f : BtAddress → Bool) (a : BtAddress)
    (hrej : f a = false) (st : ObserverState) (sig : BusSignal) :
    ObserverEvent.foundPaired a ∉ (process_signal (some f) st sig).2 := by
  cases sig with
  | interfacesAdded path hasDev addr paired =>
    cases hasDev <;> cases addr <;>
      simp [process_signal, foundPaired_notin_handle f a hrej]
  | propertiesChanged path isDev pairedOpt =>
    simp only [process_signal]
    cases isDev
    · simp
    · cases hl : lookupAddr st.pathMap path with
      | none => simp
      | some b =>
        cases pairedOpt with
        | none => simp
        | some pb => simpa using foundPaired_notin_handle f a hrej st b pb
  | interfacesRemoved path hasDev =>
    simp only [process_signal]
    cases hasDev
    · simp
    · cases hl : lookupAddr st.pathMap path with
      | none => simp
      | some b =>
        simpa using
          foundPaired_notin_handle f a hrej
            {st with pathMap := st.pathMap.filter (fun e => e.2 != path)} b false

/-- Claim C5: for every configured filter predicate, every address the
predicate rejects, every starting state of the discovery machinery and
every sequence of interface-added, properties-changed and
interface-removed signals, the found-paired callback is never invoked for
that address. -/
theorem filtered_address_never_found_paired (f : BtAddress → Bool) (a : BtAddress)
    (st : ObserverState) (sigs : List BusSignal) (hrej : f a = false) :
    ObserverEvent.foundPaired a ∉ (process_signals (some f) st sigs).2 := by
  induction sigs generalizing st with
  | nil => simp [process_signals]
  | cons sig rest ih =>
    simp only [process_signals, List.mem_append]
    push_neg
    exact ⟨foundPaired_notin_signal f a hrej st sig, ih _⟩

/-- Witness for claim C5: the filter accepting only the `AA:BB:CC` vendor
part rejects `11:22:33:04:05:06`; over a signal sequence that announces
that device as paired (and another accepted device), no found-paired
callback for it is ever invoked. -/
theorem filtered_address_never_found_paired_witness :
    ObserverEvent.foundPaired [0x11, 0x22, 0x33, 0x04, 0x05, 0x06] ∉
      (process_signals (some (fun a => a.take 3 == [0xAA, 0xBB, 0xCC])) ⟨[], []⟩
        [BusSignal.interfacesAdded 1 true (some [0x11, 0x22, 0x33, 0x04, 0x05, 0x06]) true,
         BusSignal.interfacesAdded 2 true (some [0xAA, 0xBB, 0xCC, 0x01, 0x02, 0x03]) true,
         BusSignal.propertiesChanged 1 true (some true)]).2 :=
  filtered_address_never_found_paired (fun a => a.take 3 == [0xAA, 0xBB, 0xCC])
    [0x11, 0x22, 0x33, 0x04, 0x05, 0x06] ⟨[], []⟩
    [BusSignal.interfacesAdded 1 true (some [0x11, 0x22, 0x33, 0x04, 0x05, 0x06]) true,
     BusSignal.interfacesAdded 2 true (some [0xAA, 0xBB, 0xCC, 0x01, 0x02, 0x03]) true,
     BusSignal.propertiesChanged 1 true (some true)]
    (by decide)

end ComboCtl
